import Mathlib

/-!
Shallow embedding of `src/src/main.rs` of ExetrixAnalysis, a Rust profiling
harness.  The single source function `main` is modelled as a pure function
from an environment (`World`: command-line arguments, filesystem state,
the outcomes of each fallible operation, and the child process's exit
status) to a `RunResult` (the ordered trace of observable effects, the
process's exit kind, and whether the ephemeral staging directory was
created and removed).

Modelling decisions, all taken from documented Rust semantics:
- `?` on an `anyhow::Result` returns `Err` from `main`; the `Termination`
  instance for `Result` prints `Error: <cause>` on stderr and exits 1.
  Local values (in particular the `tempfile::TempDir`) are dropped on this
  path, so the staging directory is removed.
- `std::process::exit(code)` terminates the process immediately WITHOUT
  running destructors (its documentation says so), so a live `TempDir` is
  NOT removed on that path.
- `.unwrap()` on `None` panics; a panic unwinds through `main`, running
  destructors, and the process terminates abnormally (modelled as
  `ExitKind.panicked`).
- `std::fs::remove_dir_all` fails when the path is not a directory (its
  documented contract), so a regular file at the report path is an error,
  not a removal.
- `Path::join` is modelled as string concatenation with `/`; `ExitStatus`
  display is modelled as the Unix rendering.
-/

namespace ExetrixAnalysis

/-- On-disk state of the report path (`<exe_dir>/../../report`) before the
run: absent, a regular file, or a directory. -/
inductive PathState
  | absent
  | file
  | dir
deriving DecidableEq, Repr

/-- Observable effects the harness performs, in program order. -/
inductive Ev
  | stdoutLine (s : String)
  | stderrLine (s : String)
  | removeDirAll (p : String)
  | createDirAll (p : String)
  | createTempDir (p : String)
  | writeFile (p : String) (content : String)
  | spawn (program : String) (argv : List String)
deriving DecidableEq, Repr

/-- How the harness process terminates: with a numeric exit code, or
abnormally via a panic (unwrap on `None`/index out of bounds). -/
inductive ExitKind
  | exited (code : Nat)
  | panicked
deriving DecidableEq, Repr

/-- Result of one run of the harness: the event trace, the exit kind, and
whether the ephemeral staging directory was created and whether its
removal (the `TempDir` destructor) ran before the process terminated. -/
structure RunResult where
  events : List Ev
  exit : ExitKind
  stagingCreated : Bool
  stagingRemoved : Bool
deriving DecidableEq, Repr

/-- Environment of one run: the inputs `main` reads and the outcome of each
fallible operation it performs. -/
structure World where
  /-- `env::args()`, program name first. -/
  args : List String
  /-- whether `env::current_exe()` succeeds. -/
  currentExeOk : Bool
  /-- `exe_path.parent()`: `none` makes the `.unwrap()` panic. -/
  exeDir : Option String
  /-- state of the report path before the run. -/
  reportDirState : PathState
  /-- whether `fs::remove_dir_all` succeeds when called on a directory. -/
  removeOk : Bool
  /-- whether `fs::create_dir_all` succeeds. -/
  createOk : Bool
  /-- whether `tempfile::tempdir()` succeeds. -/
  tempdirOk : Bool
  /-- the fresh unique path chosen by `tempfile::tempdir()`. -/
  tempDirPath : String
  /-- whether `fs::File::create` succeeds. -/
  fileCreateOk : Bool
  /-- whether `write_all` succeeds. -/
  writeOk : Bool
  /-- whether `profiler_path.to_str()` is `Some` (path valid UTF-8). -/
  profilerPathUtf8 : Bool
  /-- whether `report_dir.to_str()` is `Some` (path valid UTF-8). -/
  reportDirUtf8 : Bool
  /-- whether `cmd.status()` succeeds (child could be spawned and waited). -/
  statusOk : Bool
  /-- `status.code()`: `some n` = child exited with code `n`;
  `none` = abnormal termination (killed by a signal). -/
  childExit : Option Nat
  /-- whether the external instrumentation program wrote the report
  artifacts into the workspace (the harness never inspects this). -/
  childWritesReports : Bool

/-- Modelled from the spec: the embedded instrumentation payload
`include_str!("profiler_wrapper.py")`.  The file `src/profiler_wrapper.py`
is bundled into the binary at build time and is not part of the source
snapshot, so its text is modelled as an abstract fixed string; every
property proved about it depends only on it being one fixed constant. -/
def PROFILER_PY : String :=
  "<embedded profiler_wrapper.py source text>"

/-- The usage message printed to stderr when no target script is given
(`eprintln!` lines at main.rs:12-15). -/
def usageEvents (prog : String) : List Ev :=
  [.stderrLine ("Usage: " ++ prog ++ " <python_script> [args...]"),
   .stderrLine "       Creates a performance report for the Python script",
   .stderrLine "",
   .stderrLine ("Example: " ++ prog ++ " my_script.py --input data.csv")]

/-- The cleaning announcement printed before removing a pre-existing
report path (main.rs:24). -/
def cleaningMsg : String := "Cleaning previous report directory..."

/-- `exe_dir.join("../../report")` (main.rs:22). -/
def reportDirOf (exeDir : String) : String := exeDir ++ "/../../report"

/-- Finishing on the `Err` path of `main`: the `Termination` instance for
`Result` prints the error on stderr and exits 1; a live `TempDir` is
dropped on the way out, so `stagingRemoved = staged`. -/
def errResult (evs : List Ev) (cause : String) (staged : Bool) : RunResult :=
  { events := evs ++ [.stderrLine ("Error: " ++ cause)], exit := .exited 1,
    stagingCreated := staged, stagingRemoved := staged }

/-- The child argument vector built at main.rs:37-45:
staged profiler path, `--report-dir`, report dir, `--`, target script,
then the target's own arguments in order. -/
def spawnArgv (tempDirPath reportDir : String) (rest : List String) :
    List Ev :=
  [.spawn "python"
    ((tempDirPath ++ "/profiler_wrapper.py") :: "--report-dir" ::
      reportDir :: "--" :: rest)]

/-- The announcement printed before launching the child (main.rs:51-55):
run banner, script name, the space-joined forwarded arguments when there
are any, then a blank line. -/
def launchBanner : List String → List Ev
  | [] => []
  | script :: targs =>
    [.stdoutLine "Running Python script under profiler...",
     .stdoutLine ("   Script: " ++ script)] ++
    (if targs.isEmpty then []
     else [.stdoutLine ("   Args: " ++ String.intercalate " " targs)]) ++
    [.stdoutLine ""]

/-- The completion banner printed when the child exits 0 (main.rs:65-71). -/
def successEvents (reportDir : String) : List Ev :=
  [.stdoutLine "\nProfiling complete!",
   .stdoutLine "Reports generated:",
   .stdoutLine ("   - JSON: " ++ reportDir ++ "/report.json"),
   .stdoutLine ("   - HTML: " ++ reportDir ++ "/report.html"),
   .stdoutLine "",
   .stdoutLine "Open report.html in your browser to view the interactive report"]

/-- main.rs:58-72: wait for the child and map its status to the harness's
own exit.  Exit code 0 falls through to the completion banner and `Ok(())`
(destructors run: staging removed).  Nonzero or abnormal termination takes
`std::process::exit(status.code().unwrap_or(1))`, which terminates WITHOUT
running destructors, so the staging directory is NOT removed. -/
def reportStep (w : World) (evs : List Ev) (reportDir : String) :
    RunResult :=
  match w.childExit with
  | some 0 =>
    { events := evs ++ successEvents reportDir, exit := .exited 0,
      stagingCreated := true, stagingRemoved := true }
  | some (n + 1) =>
    { events := evs ++
        [.stderrLine ("\nTarget process exited with exit status: " ++
          toString (n + 1))],
      exit := .exited (n + 1), stagingCreated := true,
      stagingRemoved := false }
  | none =>
    { events := evs ++
        [.stderrLine "\nTarget process exited with signal"],
      exit := .exited 1, stagingCreated := true, stagingRemoved := false }

/-- main.rs:36-57: build the command (two `.to_str().unwrap()` calls that
panic on non-UTF-8 paths), print the launch banner, and run the child
(`cmd.status()?`). -/
def launchStep (w : World) (rest : List String) (evs : List Ev)
    (reportDir : String) : RunResult :=
  if w.profilerPathUtf8 then
    if w.reportDirUtf8 then
      let evs2 := evs ++ launchBanner rest ++
        spawnArgv w.tempDirPath reportDir rest
      if w.statusOk then reportStep w evs2 reportDir
      else errResult evs2 "failed to execute python" true
    else { events := evs, exit := .panicked, stagingCreated := true,
           stagingRemoved := true }
  else { events := evs, exit := .panicked, stagingCreated := true,
         stagingRemoved := true }

/-- main.rs:30-34: write the embedded payload into
`<tempdir>/profiler_wrapper.py`. -/
def stageStep (w : World) (rest : List String) (evs : List Ev)
    (reportDir : String) : RunResult :=
  if w.fileCreateOk then
    if w.writeOk then
      launchStep w rest
        (evs ++ [.writeFile (w.tempDirPath ++ "/profiler_wrapper.py")
          PROFILER_PY])
        reportDir
    else errResult evs "failed to write profiler payload" true
  else errResult evs "failed to create staged file" true

/-- main.rs:29: `tempdir()?` creates the fresh ephemeral directory. -/
def afterCreate (w : World) (rest : List String) (evs : List Ev)
    (reportDir : String) : RunResult :=
  if w.tempdirOk then
    stageStep w rest (evs ++ [.createTempDir w.tempDirPath]) reportDir
  else errResult evs "failed to create temporary directory" false

/-- main.rs:27: `fs::create_dir_all(&report_dir)?`. -/
def afterClean (w : World) (rest : List String) (evs : List Ev)
    (reportDir : String) : RunResult :=
  if w.createOk then
    afterCreate w rest (evs ++ [.createDirAll reportDir]) reportDir
  else errResult evs "failed to create report directory" false

/-- The whole of `main` (main.rs:9-74) as a function of the environment.

- fewer than two arguments: usage on stderr, `std::process::exit(2)`
  (with an empty argument list, `args[0]` inside the first `eprintln!`
  panics before anything is printed);
- `env::current_exe()?`, then `.parent().unwrap()` (panics on `None`);
- report path: if it exists, announce cleaning and `remove_dir_all` it
  (which fails when the path is a regular file), then `create_dir_all`;
- stage the payload, build and run the child, map its exit status. -/
def main (w : World) : RunResult :=
  match w.args with
  | [] =>
    { events := [], exit := .panicked, stagingCreated := false,
      stagingRemoved := false }
  | [prog] =>
    { events := usageEvents prog, exit := .exited 2,
      stagingCreated := false, stagingRemoved := false }
  | _prog :: script :: targs =>
    if w.currentExeOk then
      match w.exeDir with
      | none =>
        { events := [], exit := .panicked, stagingCreated := false,
          stagingRemoved := false }
      | some exeDir =>
        match w.reportDirState with
        | .absent => afterClean w (script :: targs) [] (reportDirOf exeDir)
        | .dir =>
          if w.removeOk then
            afterClean w (script :: targs)
              [.stdoutLine cleaningMsg, .removeDirAll (reportDirOf exeDir)]
              (reportDirOf exeDir)
          else
            errResult [.stdoutLine cleaningMsg]
              "failed to remove report directory" false
        | .file =>
          errResult [.stdoutLine cleaningMsg]
            "Not a directory (os error 20)" false
    else errResult [] "failed to resolve current executable path" false

/-- Preconditions under which the run reaches the staged payload: the
executable path resolves, the report path is absent or a removable
directory, and the workspace and staging filesystem operations succeed. -/
def StageOk (w : World) : Prop :=
  w.currentExeOk = true ∧
  (w.reportDirState = .dir → w.removeOk = true) ∧
  w.reportDirState ≠ .file ∧
  w.createOk = true ∧ w.tempdirOk = true ∧ w.fileCreateOk = true ∧
  w.writeOk = true

/-- Preconditions under which the run reaches the child process: staging
succeeds, both paths are valid UTF-8, and the child can be spawned. -/
def SetupOk (w : World) : Prop :=
  StageOk w ∧ w.profilerPathUtf8 = true ∧ w.reportDirUtf8 = true ∧
  w.statusOk = true

instance : DecidablePred StageOk := fun w => by
  unfold StageOk; infer_instance

instance : DecidablePred SetupOk := fun w => by
  unfold SetupOk; infer_instance

/-- The cleaning events of a run whose report path is absent or a
removable directory. -/
def cleanEvents (st : PathState) (rd : String) : List Ev :=
  match st with
  | .absent => []
  | _ => [.stdoutLine cleaningMsg, .removeDirAll rd]

/-- All events of a run up to and including the staging write. -/
def stagedEvents (w : World) (d : String) : List Ev :=
  cleanEvents w.reportDirState (reportDirOf d) ++
  [.createDirAll (reportDirOf d), .createTempDir w.tempDirPath,
   .writeFile (w.tempDirPath ++ "/profiler_wrapper.py") PROFILER_PY]

/-- All events of a run up to and including the spawn of the child. -/
def setupEvents (w : World) (d : String) (rest : List String) : List Ev :=
  stagedEvents w d ++ launchBanner rest ++
  spawnArgv w.tempDirPath (reportDirOf d) rest

theorem main_eq_launchStep (w : World) (prog script : String)
    (targs : List String) (d : String)
    (hargs : w.args = prog :: script :: targs)
    (hd : w.exeDir = some d) (h : StageOk w) :
    main w = launchStep w (script :: targs) (stagedEvents w d)
      (reportDirOf d) := by
  obtain ⟨h1, h2, h3, h4, h5, h6, h7⟩ := h
  cases hst : w.reportDirState with
  | file => exact absurd hst h3
  | absent =>
    simp [main, hargs, hd, h1, hst, afterClean, afterCreate, stageStep,
      h4, h5, h6, h7, stagedEvents, cleanEvents, List.append_assoc]
  | dir =>
    simp [main, hargs, hd, h1, hst, h2 hst, afterClean, afterCreate,
      stageStep, h4, h5, h6, h7, stagedEvents, cleanEvents,
      List.append_assoc]

theorem main_eq_reportStep (w : World) (prog script : String)
    (targs : List String) (d : String)
    (hargs : w.args = prog :: script :: targs)
    (hd : w.exeDir = some d) (h : SetupOk w) :
    main w = reportStep w (setupEvents w d (script :: targs))
      (reportDirOf d) := by
  obtain ⟨hs, h8, h9, h10⟩ := h
  rw [main_eq_launchStep w prog script targs d hargs hd hs]
  simp [launchStep, h8, h9, h10, setupEvents, List.append_assoc]

theorem reportStep_exit_ne (w : World) (evs : List Ev) (rd : String) :
    (reportStep w evs rd).exit ≠ ExitKind.panicked := by
  rcases h : w.childExit with _ | (_ | n) <;> simp [reportStep, h]

theorem launchStep_exit_ne (w : World) (rest : List String)
    (evs : List Ev) (rd : String) (h1 : w.profilerPathUtf8 = true)
    (h2 : w.reportDirUtf8 = true) :
    (launchStep w rest evs rd).exit ≠ ExitKind.panicked := by
  by_cases h3 : w.statusOk <;>
    simp [launchStep, h1, h2, h3, errResult, reportStep_exit_ne]

theorem stageStep_exit_ne (w : World) (rest : List String)
    (evs : List Ev) (rd : String) (h1 : w.profilerPathUtf8 = true)
    (h2 : w.reportDirUtf8 = true) :
    (stageStep w rest evs rd).exit ≠ ExitKind.panicked := by
  by_cases h3 : w.fileCreateOk <;> by_cases h4 : w.writeOk <;>
    simp [stageStep, h3, h4, errResult, launchStep_exit_ne, h1, h2]

theorem afterCreate_exit_ne (w : World) (rest : List String)
    (evs : List Ev) (rd : String) (h1 : w.profilerPathUtf8 = true)
    (h2 : w.reportDirUtf8 = true) :
    (afterCreate w rest evs rd).exit ≠ ExitKind.panicked := by
  by_cases h3 : w.tempdirOk <;>
    simp [afterCreate, h3, errResult, stageStep_exit_ne, h1, h2]

theorem afterClean_exit_ne (w : World) (rest : List String)
    (evs : List Ev) (rd : String) (h1 : w.profilerPathUtf8 = true)
    (h2 : w.reportDirUtf8 = true) :
    (afterClean w rest evs rd).exit ≠ ExitKind.panicked := by
  by_cases h3 : w.createOk <;>
    simp [afterClean, h3, errResult, afterCreate_exit_ne, h1, h2]

theorem main_exit_ne_panicked (w : World) (ha : w.args ≠ [])
    (hd : w.exeDir ≠ none) (h1 : w.profilerPathUtf8 = true)
    (h2 : w.reportDirUtf8 = true) :
    (main w).exit ≠ ExitKind.panicked := by
  rcases hargs : w.args with _ | ⟨prog, _ | ⟨script, targs⟩⟩
  · exact absurd hargs ha
  · simp [main, hargs]
  · rcases hde : w.exeDir with _ | θ
    · exact absurd hde hd
    · by_cases hce : w.currentExeOk
      · cases hst : w.reportDirState with
        | absent =>
          simp only [main, hargs, hde, hce, if_true, hst]
          exact afterClean_exit_ne w _ _ _ h1 h2
        | dir =>
          by_cases hrm : w.removeOk
          · simp only [main, hargs, hde, hce, if_true, hst, hrm]
            exact afterClean_exit_ne w _ _ _ h1 h2
          · simp [main, hargs, hde, hce, hst, hrm, errResult]
        | file => simp [main, hargs, hde, hce, hst, errResult]
      · simp [main, hargs, hce, errResult]

/-- The events the harness appends after the child terminates. -/
def tailEvents (w : World) (rd : String) : List Ev :=
  match w.childExit with
  | some 0 => successEvents rd
  | some (n + 1) =>
    [.stderrLine ("\nTarget process exited with exit status: " ++
      toString (n + 1))]
  | none => [.stderrLine "\nTarget process exited with signal"]

theorem reportStep_events_eq (w : World) (evs : List Ev) (rd : String) :
    (reportStep w evs rd).events = evs ++ tailEvents w rd := by
  rcases h : w.childExit with _ | (_ | n) <;>
    simp [reportStep, tailEvents, h]

theorem spawn_not_mem_tailEvents (w : World) (rd : String)
    (p : String) (a : List String) :
    Ev.spawn p a ∉ tailEvents w rd := by
  rcases h : w.childExit with _ | (_ | n) <;>
    simp [tailEvents, h, successEvents]

theorem spawn_not_mem_launchBanner (rest : List String)
    (p : String) (a : List String) :
    Ev.spawn p a ∉ launchBanner rest := by
  rcases rest with _ | ⟨s, ts⟩
  · simp [launchBanner]
  · by_cases hts : ts.isEmpty <;> simp [launchBanner, hts]

theorem spawn_mem_setupEvents (w : World) (d : String)
    (rest : List String) (p : String) (a : List String) :
    Ev.spawn p a ∈ setupEvents w d rest ↔
      p = "python" ∧
      a = (w.tempDirPath ++ "/profiler_wrapper.py") :: "--report-dir" ::
        reportDirOf d :: "--" :: rest := by
  cases hst : w.reportDirState <;>
    simp [setupEvents, stagedEvents, cleanEvents,
      spawn_not_mem_launchBanner, spawnArgv, hst, and_comm]

theorem writeFile_not_mem_tailEvents (w : World) (rd : String)
    (p c : String) :
    Ev.writeFile p c ∉ tailEvents w rd := by
  rcases h : w.childExit with _ | (_ | n) <;>
    simp [tailEvents, h, successEvents]

theorem writeFile_not_mem_launchBanner (rest : List String)
    (p c : String) :
    Ev.writeFile p c ∉ launchBanner rest := by
  rcases rest with _ | ⟨s, ts⟩
  · simp [launchBanner]
  · by_cases hts : ts.isEmpty <;> simp [launchBanner, hts]

theorem writeFile_mem_setupEvents (w : World) (d : String)
    (rest : List String) (p c : String) :
    Ev.writeFile p c ∈ setupEvents w d rest ↔
      p = w.tempDirPath ++ "/profiler_wrapper.py" ∧ c = PROFILER_PY := by
  cases hst : w.reportDirState <;>
    simp [setupEvents, stagedEvents, cleanEvents,
      writeFile_not_mem_launchBanner, spawnArgv, hst, and_comm]

/-- Base environment for concrete runs: a valid invocation
`harness run.py --flag`, a resolvable executable path, no pre-existing
report path, and every filesystem operation succeeding. -/
def baseWorld : World :=
  { args := ["harness", "run.py", "--flag"],
    currentExeOk := true, exeDir := some "/opt/exetrix/target/debug",
    reportDirState := .absent, removeOk := true, createOk := true,
    tempdirOk := true, tempDirPath := "/tmp/.tmpAb12Cd",
    fileCreateOk := true, writeOk := true, profilerPathUtf8 := true,
    reportDirUtf8 := true, statusOk := true, childExit := some 0,
    childWritesReports := true }

/-- Run whose child exits with code 7. -/
def worldExit7 : World := { baseWorld with childExit := some 7 }

/-- Run whose child is killed by a signal (no exit code). -/
def worldSignal : World := { baseWorld with childExit := none }

/-- C1: when the child terminates, the harness's own exit status equals
the child's: exit code `n` (including 0) is propagated exactly, and an
abnormal termination without an exit code maps to the fallback code 1. -/
theorem claim1_exit_code_fidelity (w : World) (prog script : String)
    (targs : List String) (d : String)
    (hargs : w.args = prog :: script :: targs)
    (hd : w.exeDir = some d) (h : SetupOk w) :
    (∀ n, w.childExit = some n → (main w).exit = .exited n) ∧
    (w.childExit = none → (main w).exit = .exited 1) := by
  rw [main_eq_reportStep w prog script targs d hargs hd h]
  constructor
  · intro n hn
    rcases n with _ | m <;> simp [reportStep, hn]
  · intro hn
    simp [reportStep, hn]

/-- Application of C1 at concrete runs: child exit code 7 is propagated,
and a signal-killed child yields harness exit 1. -/
theorem claim1_exit_code_fidelity_app :
    (main worldExit7).exit = .exited 7 ∧
    (main worldSignal).exit = .exited 1 :=
  ⟨(claim1_exit_code_fidelity worldExit7 "harness" "run.py" ["--flag"]
      "/opt/exetrix/target/debug" rfl rfl (by decide)).1 7 rfl,
   (claim1_exit_code_fidelity worldSignal "harness" "run.py" ["--flag"]
      "/opt/exetrix/target/debug" rfl rfl (by decide)).2 rfl⟩

/-- C2 fails on the code: when the child exits nonzero (code 7 here) or
is killed by a signal, main.rs:62 calls `std::process::exit`, which
terminates without running destructors, so the `TempDir` holding the
staged payload is never dropped and the staging directory is left on
disk, contrary to the removal-on-every-exit-path guarantee. -/
theorem claim2_staging_dir_leaked_on_child_failure :
    (main worldExit7).stagingCreated = true ∧
    (main worldExit7).stagingRemoved = false ∧
    (main worldExit7).exit = .exited 7 ∧
    (main worldSignal).stagingCreated = true ∧
    (main worldSignal).stagingRemoved = false :=
  ⟨rfl, rfl, rfl, rfl, rfl⟩

/-- C3: an invocation with no token beyond the program name prints the
usage message (program name, purpose, example) on stderr only and exits
with status 2, with no filesystem writes and no staging beforehand. -/
theorem claim3_usage_rejection (w : World) (prog : String)
    (hargs : w.args = [prog]) :
    (main w).exit = .exited 2 ∧
    (main w).events = usageEvents prog ∧
    (main w).stagingCreated = false ∧
    ∀ e ∈ (main w).events, ∃ s, e = Ev.stderrLine s := by
  have hm : main w =
      { events := usageEvents prog, exit := .exited 2,
        stagingCreated := false, stagingRemoved := false } := by
    simp [main, hargs]
  rw [hm]
  refine ⟨rfl, rfl, rfl, ?_⟩
  intro e he
  simp only [usageEvents, List.mem_cons, List.mem_singleton,
    List.not_mem_nil, or_false] at he
  rcases he with h | h | h | h <;> exact ⟨_, h⟩

/-- Invocation with only the program name. -/
def worldNoArgs : World := { baseWorld with args := ["harness"] }

/-- Application of C3 at the concrete invocation `harness`. -/
theorem claim3_usage_rejection_app :
    (main worldNoArgs).exit = .exited 2 ∧
    (main worldNoArgs).events = usageEvents "harness" ∧
    (main worldNoArgs).stagingCreated = false :=
  ⟨(claim3_usage_rejection worldNoArgs "harness" rfl).1,
   (claim3_usage_rejection worldNoArgs "harness" rfl).2.1,
   (claim3_usage_rejection worldNoArgs "harness" rfl).2.2.1⟩

/-- C4: every valid run spawns the child with exactly the argument vector
interpreter (`python`), staged instrumentation path, `--report-dir`,
report workspace path, `--`, target script, then the target's own
arguments in order; and no other spawn occurs. -/
theorem claim4_argv_exact (w : World) (prog script : String)
    (targs : List String) (d : String)
    (hargs : w.args = prog :: script :: targs)
    (hd : w.exeDir = some d) (h : SetupOk w) :
    Ev.spawn "python"
      ((w.tempDirPath ++ "/profiler_wrapper.py") :: "--report-dir" ::
        (d ++ "/../../report") :: "--" :: script :: targs) ∈
      (main w).events ∧
    ∀ p a, Ev.spawn p a ∈ (main w).events →
      p = "python" ∧
      a = (w.tempDirPath ++ "/profiler_wrapper.py") :: "--report-dir" ::
        (d ++ "/../../report") :: "--" :: script :: targs := by
  rw [main_eq_reportStep w prog script targs d hargs hd h]
  constructor
  · rw [reportStep_events_eq, List.mem_append]
    exact Or.inl ((spawn_mem_setupEvents w d (script :: targs) _ _).2
      ⟨rfl, rfl⟩)
  · intro p a hpa
    rw [reportStep_events_eq, List.mem_append] at hpa
    rcases hpa with hpa | hpa
    · exact (spawn_mem_setupEvents w d (script :: targs) p a).1 hpa
    · exact absurd hpa (spawn_not_mem_tailEvents w _ p a)

/-- Application of C4 at the concrete invocation `harness run.py --flag`. -/
theorem claim4_argv_exact_app :
    Ev.spawn "python"
      ["/tmp/.tmpAb12Cd/profiler_wrapper.py", "--report-dir",
       "/opt/exetrix/target/debug/../../report", "--", "run.py",
       "--flag"] ∈ (main baseWorld).events :=
  (claim4_argv_exact baseWorld "harness" "run.py" ["--flag"]
    "/opt/exetrix/target/debug" rfl rfl (by decide)).1

/-- Run whose report path is occupied by a regular file. -/
def worldFileAtReport : World :=
  { baseWorld with reportDirState := .file }

/-- C5 as stated is false on the code: when the report path exists as a
regular FILE, `fs::remove_dir_all` fails (its contract rejects
non-directories), so rather than removing and recreating the workspace
and starting the child, the harness announces cleaning and then aborts
with an I/O error and exit code 1 — the full trace shows no removal, no
creation and no spawn. -/
theorem claim5_file_counterexample :
    (main worldFileAtReport).exit = .exited 1 ∧
    (main worldFileAtReport).events =
      [.stdoutLine "Cleaning previous report directory...",
       .stderrLine "Error: Not a directory (os error 20)"] :=
  ⟨rfl, rfl⟩

/-- C5 amended: if the report path exists as a directory, the removal is
announced on stdout, the path recursively removed and then recreated,
all before the child is spawned; if the path is absent, the first event
is its creation; but if the path exists as a regular file, the removal
fails and the harness aborts with exit 1 without spawning any child. -/
theorem claim5_workspace_reset_amended (w : World) (prog script : String)
    (targs : List String) (d : String)
    (hargs : w.args = prog :: script :: targs)
    (hd : w.exeDir = some d) :
    (w.reportDirState = .dir → SetupOk w →
      ∃ t, (main w).events =
        .stdoutLine "Cleaning previous report directory..." ::
        .removeDirAll (d ++ "/../../report") ::
        .createDirAll (d ++ "/../../report") :: t ∧
        ∃ a, Ev.spawn "python" a ∈ t) ∧
    (w.reportDirState = .absent → SetupOk w →
      ∃ t, (main w).events =
        .createDirAll (d ++ "/../../report") :: t ∧
        ∃ a, Ev.spawn "python" a ∈ t) ∧
    (w.reportDirState = .file → w.currentExeOk = true →
      (main w).exit = .exited 1 ∧
      ∀ p a, Ev.spawn p a ∉ (main w).events) := by
  refine ⟨?_, ?_, ?_⟩
  · intro hst h
    rw [main_eq_reportStep w prog script targs d hargs hd h,
      reportStep_events_eq]
    refine ⟨[Ev.createTempDir w.tempDirPath,
        Ev.writeFile (w.tempDirPath ++ "/profiler_wrapper.py")
          PROFILER_PY] ++ launchBanner (script :: targs) ++
        spawnArgv w.tempDirPath (reportDirOf d) (script :: targs) ++
        tailEvents w (reportDirOf d), ?_, ?_⟩
    · simp [setupEvents, stagedEvents, cleanEvents, hst, reportDirOf,
        cleaningMsg]
    · exact ⟨(w.tempDirPath ++ "/profiler_wrapper.py") :: "--report-dir" ::
        reportDirOf d :: "--" :: script :: targs, by simp [spawnArgv]⟩
  · intro hst h
    rw [main_eq_reportStep w prog script targs d hargs hd h,
      reportStep_events_eq]
    refine ⟨[Ev.createTempDir w.tempDirPath,
        Ev.writeFile (w.tempDirPath ++ "/profiler_wrapper.py")
          PROFILER_PY] ++ launchBanner (script :: targs) ++
        spawnArgv w.tempDirPath (reportDirOf d) (script :: targs) ++
        tailEvents w (reportDirOf d), ?_, ?_⟩
    · simp [setupEvents, stagedEvents, cleanEvents, hst, reportDirOf]
    · exact ⟨(w.tempDirPath ++ "/profiler_wrapper.py") :: "--report-dir" ::
        reportDirOf d :: "--" :: script :: targs, by simp [spawnArgv]⟩
  · intro hst hce
    have hm : main w = errResult [.stdoutLine cleaningMsg]
        "Not a directory (os error 20)" false := by
      simp [main, hargs, hd, hce, hst]
    rw [hm]
    refine ⟨rfl, ?_⟩
    intro p a
    simp [errResult, cleaningMsg]

/-- Run whose previous report directory is present and removable. -/
def worldDirAtReport : World :=
  { baseWorld with reportDirState := .dir }

/-- Application of C5 (amended) at a run with a pre-existing report
directory and at the file counterexample world. -/
theorem claim5_workspace_reset_amended_app :
    (∃ t, (main worldDirAtReport).events =
      .stdoutLine "Cleaning previous report directory..." ::
      .removeDirAll "/opt/exetrix/target/debug/../../report" ::
      .createDirAll "/opt/exetrix/target/debug/../../report" :: t ∧
      ∃ a, Ev.spawn "python" a ∈ t) ∧
    (main worldFileAtReport).exit = .exited 1 :=
  ⟨(claim5_workspace_reset_amended worldDirAtReport "harness" "run.py"
      ["--flag"] "/opt/exetrix/target/debug" rfl rfl).1 rfl (by decide),
   ((claim5_workspace_reset_amended worldFileAtReport "harness" "run.py"
      ["--flag"] "/opt/exetrix/target/debug" rfl rfl).2.2 rfl rfl).1⟩

/-- C6: a filesystem failure while removing or creating the report
workspace aborts the run before any child is spawned, surfaces the cause
as an error line on stderr, and exits with code 1. -/
theorem claim6_workspace_io_error_aborts (w : World)
    (prog script : String) (targs : List String) (d : String)
    (hargs : w.args = prog :: script :: targs)
    (hd : w.exeDir = some d) (hce : w.currentExeOk = true)
    (hfail : w.reportDirState = .file ∨
      (w.reportDirState = .dir ∧ w.removeOk = false) ∨
      (w.reportDirState = .absent ∧ w.createOk = false) ∨
      (w.reportDirState = .dir ∧ w.removeOk = true ∧
        w.createOk = false)) :
    (main w).exit = .exited 1 ∧
    (∀ p a, Ev.spawn p a ∉ (main w).events) ∧
    ∃ c, Ev.stderrLine ("Error: " ++ c) ∈ (main w).events := by
  rcases hfail with hst | ⟨hst, hrm⟩ | ⟨hst, hcr⟩ | ⟨hst, hrm, hcr⟩
  · have hm : main w = errResult [.stdoutLine cleaningMsg]
        "Not a directory (os error 20)" false := by
      simp [main, hargs, hd, hce, hst]
    rw [hm]
    exact ⟨rfl, fun p a => by simp [errResult, cleaningMsg],
      ⟨"Not a directory (os error 20)", by simp [errResult]⟩⟩
  · have hm : main w = errResult [.stdoutLine cleaningMsg]
        "failed to remove report directory" false := by
      simp [main, hargs, hd, hce, hst, hrm]
    rw [hm]
    exact ⟨rfl, fun p a => by simp [errResult, cleaningMsg],
      ⟨"failed to remove report directory", by simp [errResult]⟩⟩
  · have hm : main w = errResult []
        "failed to create report directory" false := by
      simp [main, hargs, hd, hce, hst, afterClean, hcr]
    rw [hm]
    exact ⟨rfl, fun p a => by simp [errResult],
      ⟨"failed to create report directory", by simp [errResult]⟩⟩
  · have hm : main w = errResult
        [.stdoutLine cleaningMsg, .removeDirAll (reportDirOf d)]
        "failed to create report directory" false := by
      simp [main, hargs, hd, hce, hst, hrm, afterClean, hcr]
    rw [hm]
    exact ⟨rfl, fun p a => by simp [errResult, cleaningMsg],
      ⟨"failed to create report directory", by simp [errResult]⟩⟩

/-- Run where creating the report workspace directory fails. -/
def worldCreateFails : World := { baseWorld with createOk := false }

/-- Application of C6 at a run whose `create_dir_all` fails. -/
theorem claim6_workspace_io_error_aborts_app :
    (main worldCreateFails).exit = .exited 1 :=
  (claim6_workspace_io_error_aborts worldCreateFails "harness" "run.py"
    ["--flag"] "/opt/exetrix/target/debug" rfl rfl rfl
    (Or.inr (Or.inr (Or.inl ⟨rfl, rfl⟩)))).1

/-- C7: the only file the harness itself writes is the staged payload:
it creates the fresh ephemeral directory reported by `tempdir()`, and
every `writeFile` it performs targets the fixed name
`profiler_wrapper.py` inside that directory with content byte-for-byte
equal to the build-time embedded constant `PROFILER_PY`. -/
theorem claim7_staged_payload_verbatim (w : World) (prog script : String)
    (targs : List String) (d : String)
    (hargs : w.args = prog :: script :: targs)
    (hd : w.exeDir = some d) (h : SetupOk w) :
    Ev.createTempDir w.tempDirPath ∈ (main w).events ∧
    Ev.writeFile (w.tempDirPath ++ "/profiler_wrapper.py") PROFILER_PY ∈
      (main w).events ∧
    ∀ p c, Ev.writeFile p c ∈ (main w).events →
      p = w.tempDirPath ++ "/profiler_wrapper.py" ∧ c = PROFILER_PY := by
  rw [main_eq_reportStep w prog script targs d hargs hd h,
    reportStep_events_eq]
  refine ⟨?_, ?_, ?_⟩
  · rw [List.mem_append]
    refine Or.inl ?_
    cases hst : w.reportDirState <;>
      simp [setupEvents, stagedEvents, cleanEvents, hst]
  · rw [List.mem_append]
    exact Or.inl ((writeFile_mem_setupEvents w d (script :: targs) _ _).2
      ⟨rfl, rfl⟩)
  · intro p c hpc
    rw [List.mem_append] at hpc
    rcases hpc with hpc | hpc
    · exact (writeFile_mem_setupEvents w d (script :: targs) p c).1 hpc
    · exact absurd hpc (writeFile_not_mem_tailEvents w _ p c)

/-- Application of C7 at the concrete run `harness run.py --flag`. -/
theorem claim7_staged_payload_verbatim_app :
    Ev.writeFile "/tmp/.tmpAb12Cd/profiler_wrapper.py" PROFILER_PY ∈
      (main baseWorld).events :=
  (claim7_staged_payload_verbatim baseWorld "harness" "run.py" ["--flag"]
    "/opt/exetrix/target/debug" rfl rfl (by decide)).2.1

/-- C8: when the child exits 0, the harness appends the completion banner,
the two artifact paths inside the report workspace, and the
open-in-browser hint to stdout, and exits with status 0. -/
theorem claim8_success_banner (w : World) (prog script : String)
    (targs : List String) (d : String)
    (hargs : w.args = prog :: script :: targs)
    (hd : w.exeDir = some d) (h : SetupOk w)
    (h0 : w.childExit = some 0) :
    (main w).exit = .exited 0 ∧
    ∃ pre, (main w).events = pre ++
      [.stdoutLine "\nProfiling complete!",
       .stdoutLine "Reports generated:",
       .stdoutLine ("   - JSON: " ++ (d ++ "/../../report") ++
         "/report.json"),
       .stdoutLine ("   - HTML: " ++ (d ++ "/../../report") ++
         "/report.html"),
       .stdoutLine "",
       .stdoutLine
         "Open report.html in your browser to view the interactive report"]
      := by
  rw [main_eq_reportStep w prog script targs d hargs hd h]
  refine ⟨by simp [reportStep, h0], ?_⟩
  exact ⟨setupEvents w d (script :: targs),
    by simp [reportStep, h0, successEvents, reportDirOf]⟩

/-- Application of C8 at the concrete run `harness run.py --flag` with a
child exiting 0. -/
theorem claim8_success_banner_app :
    (main baseWorld).exit = .exited 0 :=
  (claim8_success_banner baseWorld "harness" "run.py" ["--flag"]
    "/opt/exetrix/target/debug" rfl rfl (by decide) rfl).1

/-- C9: the three `.unwrap()` calls are the only panic sites after
validation: the run panics when the executable path has no parent, or
when the staged path or the report path is not valid UTF-8; and whenever
the arguments are nonempty, the executable path has a parent and both
paths are valid UTF-8, the run never panics. -/
theorem claim9_unwrap_panic_sites (w : World) :
    (∀ prog script targs, w.args = prog :: script :: targs →
      w.currentExeOk = true → w.exeDir = none →
      (main w).exit = .panicked) ∧
    (∀ prog script targs d, w.args = prog :: script :: targs →
      w.exeDir = some d → StageOk w → w.profilerPathUtf8 = false →
      (main w).exit = .panicked) ∧
    (∀ prog script targs d, w.args = prog :: script :: targs →
      w.exeDir = some d → StageOk w → w.profilerPathUtf8 = true →
      w.reportDirUtf8 = false → (main w).exit = .panicked) ∧
    (w.args ≠ [] → w.exeDir ≠ none → w.profilerPathUtf8 = true →
      w.reportDirUtf8 = true → (main w).exit ≠ .panicked) := by
  refine ⟨?_, ?_, ?_, ?_⟩
  · intro prog script targs hargs hce hd
    simp [main, hargs, hce, hd]
  · intro prog script targs d hargs hd hs hpu
    rw [main_eq_launchStep w prog script targs d hargs hd hs]
    simp [launchStep, hpu]
  · intro prog script targs d hargs hd hs hpu hru
    rw [main_eq_launchStep w prog script targs d hargs hd hs]
    simp [launchStep, hpu, hru]
  · exact main_exit_ne_panicked w

/-- Run whose executable path has no parent directory. -/
def worldNoParent : World := { baseWorld with exeDir := none }

/-- Run whose staged profiler path is not valid UTF-8. -/
def worldBadProfilerPath : World :=
  { baseWorld with profilerPathUtf8 := false }

/-- Run whose report directory path is not valid UTF-8. -/
def worldBadReportPath : World :=
  { baseWorld with reportDirUtf8 := false }

/-- Application of C9 at concrete runs: each defective environment
panics, and the fully valid one does not. -/
theorem claim9_unwrap_panic_sites_app :
    (main worldNoParent).exit = .panicked ∧
    (main worldBadProfilerPath).exit = .panicked ∧
    (main worldBadReportPath).exit = .panicked ∧
    (main baseWorld).exit ≠ .panicked :=
  ⟨(claim9_unwrap_panic_sites worldNoParent).1 "harness" "run.py"
      ["--flag"] rfl rfl rfl,
   (claim9_unwrap_panic_sites worldBadProfilerPath).2.1 "harness"
      "run.py" ["--flag"] "/opt/exetrix/target/debug" rfl rfl
      (by decide) rfl,
   (claim9_unwrap_panic_sites worldBadReportPath).2.2.1 "harness"
      "run.py" ["--flag"] "/opt/exetrix/target/debug" rfl rfl
      (by decide) rfl rfl,
   (claim9_unwrap_panic_sites baseWorld).2.2.2 (by decide) (by decide)
      rfl rfl⟩

/-- C10: the harness never inspects the workspace contents after the
child runs: its entire observable behavior is independent of whether the
instrumentation program wrote the report artifacts, and a run whose
child exits 0 without writing either artifact still prints the
completion banner with both artifact paths and exits 0. -/
theorem claim10_no_artifact_check (w : World) :
    main { w with childWritesReports := false } = main w ∧
    (∀ prog script targs d, w.args = prog :: script :: targs →
      w.exeDir = some d → SetupOk w → w.childExit = some 0 →
      w.childWritesReports = false →
      (main w).exit = .exited 0 ∧
      Ev.stdoutLine "\nProfiling complete!" ∈ (main w).events ∧
      Ev.stdoutLine ("   - JSON: " ++ (d ++ "/../../report") ++
        "/report.json") ∈ (main w).events ∧
      Ev.stdoutLine ("   - HTML: " ++ (d ++ "/../../report") ++
        "/report.html") ∈ (main w).events) := by
  constructor
  · rfl
  · intro prog script targs d hargs hd h h0 _hnw
    rw [main_eq_reportStep w prog script targs d hargs hd h]
    refine ⟨by simp [reportStep, h0], ?_, ?_, ?_⟩ <;>
      simp [reportStep, h0, successEvents, reportDirOf]

/-- Run whose child exits 0 but writes neither report artifact. -/
def worldNoReports : World :=
  { baseWorld with childWritesReports := false }

/-- Application of C10 at a concrete run whose child wrote nothing. -/
theorem claim10_no_artifact_check_app :
    (main worldNoReports).exit = .exited 0 ∧
    Ev.stdoutLine "\nProfiling complete!" ∈ (main worldNoReports).events :=
  ⟨((claim10_no_artifact_check worldNoReports).2 "harness" "run.py"
      ["--flag"] "/opt/exetrix/target/debug" rfl rfl (by decide) rfl
      rfl).1,
   ((claim10_no_artifact_check worldNoReports).2 "harness" "run.py"
      ["--flag"] "/opt/exetrix/target/debug" rfl rfl (by decide) rfl
      rfl).2.1⟩

end ExetrixAnalysis
